import Mathlib

/-!
Shallow embedding of the Google Analytics interceptor plugin
(`plugins/interceptors/analytics/analytics.go`).

Modelling conventions:
* Go strings are modelled as `List Char` (`Str`), so that Go's
  `strings.Split` on a one-character separator becomes a structurally
  recursive function that is easy to reason about.
* Go byte slices (`[]byte`) are modelled as `List Nat` (`Bytes`).
* The underlying `http.ResponseWriter` the wrapper delegates to is an
  abstract, deterministic sink: a state type `σ` with a `writeHeader`
  transition and a `write` transition that also yields the Go return
  value `(int, error)`, the error being `Option ε`.
* A downstream handler interacts with its response writer only through
  the interface, so it is modelled by the trace of writer operations it
  performs (`List WOp`), possibly depending on the request it receives.
* Standard-library effects (`json.Marshal`, `http.NewRequest` failure,
  `http.Client.Do`) are oracles collected in `GAEnv`.
-/

/-- Go `string`, as a list of characters. -/
abbrev Str := List Char

/-- Go `[]byte`, as a list of byte values. -/
abbrev Bytes := List Nat

/-- Go `strings.Split(s, sep)` for a one-character separator `sep`:
splits `s` at every occurrence of `sep`; the result is never empty, and
`splitOnChar sep [] = [[]]`, matching Go's `Split("", sep) = [""]`. -/
def splitOnChar (sep : Char) : Str → List Str
  | [] => [[]]
  | c :: rest =>
      let r := splitOnChar sep rest
      if c = sep then [] :: r
      else (c :: r.headD []) :: r.tail

/-- Go `http.Request.Body`, abstracted as the byte prefix that a full
read (`ioutil.ReadAll`) successfully returns, together with the error,
if any, that the read reports after that prefix. -/
structure BodyStream where
  content : Bytes
  readErr : Option Str
deriving DecidableEq, Repr

/-- `ioutil.ReadAll` on a body stream: the readable bytes plus the
error encountered (`none` = clean EOF). -/
def readAll (b : BodyStream) : Bytes × Option Str := (b.content, b.readErr)

/-- The parts of `http.Request` the interceptor consumes: method, URL
path, header map, parsed cookies, remote address and body stream.
`headers` and `cookies` are association lists; lookup returns the first
match, matching `http.Header.Get` / `http.Request.Cookie`. -/
structure Request where
  method : Str
  path : Str
  headers : List (Str × Str)
  cookies : List (Str × Str)
  remoteAddr : Str
  body : Option BodyStream
deriving DecidableEq, Repr

/-- Go `http.Header.Get(k)`: first value for the key, `""` if absent. -/
def headerGet (hs : List (Str × Str)) (k : Str) : Str :=
  match hs.find? (fun p => p.1 == k) with
  | some p => p.2
  | none => []

/-- Go `http.Request.Cookie(name)`: the first cookie of that name, or
an error (modelled as `none`) when no such cookie exists. -/
def cookieGet (r : Request) (name : Str) : Option Str :=
  match r.cookies.find? (fun p => p.1 == name) with
  | some p => some p.2
  | none => none

/-- Go `http.Request.UserAgent()`, i.e. `Header.Get("User-Agent")`. -/
def Request.userAgent (r : Request) : Str := headerGet r.headers "User-Agent".data

/-- `getIPAddress` (analytics.go lines 185-195): the Go loop over the
two forwarding headers is unrolled into its two iterations; each
iteration tests `Header.Get(h) != ""` and on success returns
`strings.Split(ip, ",")[0]`; the fallback returns
`strings.Split(r.RemoteAddr, ":")[0]`. -/
def getIPAddress (r : Request) : Str :=
  if headerGet r.headers "X-Forwarded-For".data ≠ [] then
    (splitOnChar ',' (headerGet r.headers "X-Forwarded-For".data)).headD []
  else if headerGet r.headers "X-Real-IP".data ≠ [] then
    (splitOnChar ',' (headerGet r.headers "X-Real-IP".data)).headD []
  else
    (splitOnChar ':' r.remoteAddr).headD []

/-- `getClientID` (analytics.go lines 172-182): the `_ga` cookie value
when present, otherwise `getIPAddress(r) + r.UserAgent()`. -/
def getClientID (r : Request) : Str :=
  match cookieGet r "_ga".data with
  | some v => v
  | none => getIPAddress r ++ r.userAgent

/-- The underlying response sink (`http.ResponseWriter`) the wrapper
delegates to: a deterministic state machine over states `σ`.
`write` returns the new state together with Go's `(int, error)` return
value, the error drawn from `ε`. -/
structure Sink (σ ε : Type) where
  writeHeader : σ → Nat → σ
  write : σ → Bytes → σ × (Nat × Option ε)

/-- `responseWriter` (analytics.go lines 43-47): the captured status
code, the `bytes.Buffer` body, and the state of the wrapped underlying
`http.ResponseWriter`. -/
structure ResponseWriter (σ : Type) where
  statusCode : Nat
  body : Bytes
  sink : σ
deriving Repr

/-- `responseWriter.WriteHeader` (lines 50-53): records the code, then
forwards the same code to the underlying sink. -/
def rwWriteHeader {σ ε : Type} (S : Sink σ ε) (rw : ResponseWriter σ) (code : Nat) :
    ResponseWriter σ :=
  { statusCode := code, body := rw.body, sink := S.writeHeader rw.sink code }

/-- `responseWriter.Write` (lines 56-59): appends `b` to the body
buffer, then forwards the same `b` to the underlying sink and returns
exactly the sink's `(int, error)` result. -/
def rwWrite {σ ε : Type} (S : Sink σ ε) (rw : ResponseWriter σ) (b : Bytes) :
    ResponseWriter σ × (Nat × Option ε) :=
  ({ statusCode := rw.statusCode, body := rw.body ++ b,
     sink := (S.write rw.sink b).1 },
   (S.write rw.sink b).2)

/-- One operation a downstream handler performs on its response writer. -/
inductive WOp where
  | writeHeader (code : Nat)
  | write (b : Bytes)
deriving DecidableEq, Repr

/-- Run a trace of writer operations directly against the underlying
sink (the un-wrapped handler): final sink state and the list of
`(int, error)` results the handler saw for its writes. -/
def runSink {σ ε : Type} (S : Sink σ ε) : σ → List WOp → σ × List (Nat × Option ε)
  | s, [] => (s, [])
  | s, .writeHeader c :: ops => runSink S (S.writeHeader s c) ops
  | s, .write b :: ops =>
      ((runSink S (S.write s b).1 ops).1,
       (S.write s b).2 :: (runSink S (S.write s b).1 ops).2)

/-- Run a trace of writer operations through the capturing wrapper
(the wrapped handler): final wrapper state and the write results. -/
def runWrapped {σ ε : Type} (S : Sink σ ε) :
    ResponseWriter σ → List WOp → ResponseWriter σ × List (Nat × Option ε)
  | rw, [] => (rw, [])
  | rw, .writeHeader c :: ops => runWrapped S (rwWriteHeader S rw c) ops
  | rw, .write b :: ops =>
      ((runWrapped S (rwWrite S rw b).1 ops).1,
       (rwWrite S rw b).2 :: (runWrapped S (rwWrite S rw b).1 ops).2)

/-- The last status code explicitly set by a trace, or the default `d`
when the trace never calls `WriteHeader` (spec-side characterisation). -/
def lastStatus (d : Nat) : List WOp → Nat
  | [] => d
  | .writeHeader c :: ops => lastStatus c ops
  | .write _ :: ops => lastStatus d ops

/-- Concatenation, in call order, of every byte slice a trace writes
(spec-side characterisation of the body buffer). -/
def writesConcat : List WOp → Bytes
  | [] => []
  | .writeHeader _ :: ops => writesConcat ops
  | .write b :: ops => b ++ writesConcat ops

/-- `Analytics` configuration struct (analytics.go lines 35-40). -/
structure Analytics where
  TrackingID : Str
  Enabled : Bool
  EndpointURL : Str
deriving DecidableEq, Repr

/-- Default GA4 endpoint (analytics.go line 65). -/
def defaultEndpointURL : Str := "https://www.google-analytics.com/mp/collect".data

/-- The hardcoded API secret placeholder (analytics.go line 135). -/
def apiSecret : Str := "YOUR_API_SECRET".data

/-- The endpoint defaulting done by `Handler()` before the middleware
closure is returned (lines 63-66). -/
def Analytics.resolveEndpoint (a : Analytics) : Analytics :=
  if a.EndpointURL = [] then { a with EndpointURL := defaultEndpointURL } else a

/-- The `params` object of the dispatched GA event (lines 107-114). -/
structure EventParams where
  path : Str
  method : Str
  status_code : Nat
  response_time_ms : Nat
  user_agent : Str
  ip_address : Str
deriving DecidableEq, Repr

/-- One element of the `events` array (lines 105-115). -/
structure GAEvent where
  name : Str
  params : EventParams
deriving DecidableEq, Repr

/-- The `eventData` map built by the handler (lines 102-117). -/
structure EventData where
  client_id : Str
  events : List GAEvent
deriving DecidableEq, Repr

/-- The outbound HTTP request `sendToGA` builds (lines 145-150). -/
structure HttpRequest where
  method : Str
  url : Str
  contentType : Str
  body : Bytes
deriving DecidableEq, Repr

/-- The collector's response: status code and (already read) body. -/
structure HttpResponse where
  status : Nat
  body : Str
deriving DecidableEq, Repr

/-- The error-log lines `sendToGA` can emit (lines 140, 147, 156,
163-166); `collectorFail` carries the response status and body. -/
inductive LogMsg where
  | marshalFail (err : Str)
  | requestCreateFail (err : Str)
  | transportFail (err : Str)
  | collectorFail (status : Nat) (respBody : Str)
deriving DecidableEq, Repr

/-- Observable outcome of one `sendToGA` call: the outbound send
attempts performed, in order, and the error log emitted, if any. -/
structure SendResult where
  attempts : List HttpRequest
  errorLog : Option LogMsg
deriving DecidableEq, Repr

/-- Oracles for the standard-library effects `sendToGA` uses:
`marshal` for `json.Marshal`, `newReqErr` for the failure case of
`http.NewRequest` (`none` = creation succeeds), `doSend` for
`http.Client.Do` (error = transport failure). -/
structure GAEnv where
  marshal : EventData → Except Str Bytes
  newReqErr : Str → Bytes → Option Str
  doSend : HttpRequest → Except Str HttpResponse

/-- The URL `sendToGA` builds (line 135). -/
def Analytics.gaURL (a : Analytics) : Str :=
  a.EndpointURL ++ "?measurement_id=".data ++ a.TrackingID
    ++ "&api_secret=YOUR_API_SECRET".data

/-- `Analytics.sendToGA` (lines 133-168): marshal the event; on
failure log and stop with no outbound request. Build the POST request
with `Content-Type: application/json`; on creation failure log and
stop. Send it once; transport failure is logged, and a response whose
status is neither 200 (`http.StatusOK`) nor 204
(`http.StatusNoContent`) is logged with its status and body. -/
def Analytics.sendToGA (a : Analytics) (env : GAEnv) (eventData : EventData) :
    SendResult :=
  match env.marshal eventData with
  | .error e => ⟨[], some (.marshalFail e)⟩
  | .ok jsonData =>
    match env.newReqErr a.gaURL jsonData with
    | some e => ⟨[], some (.requestCreateFail e)⟩
    | none =>
      match env.doSend ⟨"POST".data, a.gaURL, "application/json".data, jsonData⟩ with
      | .error e =>
          ⟨[⟨"POST".data, a.gaURL, "application/json".data, jsonData⟩],
           some (.transportFail e)⟩
      | .ok resp =>
          if resp.status ≠ 200 ∧ resp.status ≠ 204 then
            ⟨[⟨"POST".data, a.gaURL, "application/json".data, jsonData⟩],
             some (.collectorFail resp.status resp.body)⟩
          else
            ⟨[⟨"POST".data, a.gaURL, "application/json".data, jsonData⟩], none⟩

/-- The body copy-and-restore step (lines 87-92): when the body is
non-nil, `ReadAll` it — discarding the error — and replace it by a
clean stream over the bytes read. -/
def restoreBody (r : Request) : Request :=
  match r.body with
  | none => r
  | some bs => { r with body := some ⟨(readAll bs).1, none⟩ }

/-- The `eventData` value assembled by the handler (lines 102-117),
from the request, the captured status code and the elapsed ms. -/
def mkEventData (r : Request) (status d : Nat) : EventData :=
  ⟨getClientID r,
   [⟨"api_request".data,
     ⟨r.path, r.method, status, d, r.userAgent, getIPAddress r⟩⟩]⟩

/-- Everything one run of the middleware produces that the model
observes: final underlying sink state, the write results the
downstream handler saw, the wrapper's captured `(status, body)` (when
a wrapper was used), the event handed to dispatch (when any), the
request the downstream handler received, and whether it got the
wrapper or the original sink. -/
structure HandlerResult (σ ε : Type) where
  sink : σ
  results : List (Nat × Option ε)
  captured : Option (Nat × Bytes)
  dispatched : Option EventData
  downstreamReq : Request
  wrapped : Bool

/-- One run of the middleware returned by `Analytics.Handler()`
(lines 68-128) on a single request. `next` is the downstream handler,
modelled by the writer-operation trace it performs given the request
it receives; `d` is the elapsed milliseconds measured around the
downstream call; `s` is the initial state of the original response
sink. The gate (line 71) tests the same `Enabled`/`TrackingID` fields
`Handler()`'s closure reads (endpoint defaulting, done before the
closure is returned, touches neither). The second component is the
outcome of the `go a.sendToGA(eventData)` dispatch, `none` when the
gate skipped tracking. -/
def Analytics.handlerRun {σ ε : Type} (a : Analytics) (S : Sink σ ε) (env : GAEnv)
    (next : Request → List WOp) (d : Nat) (r : Request) (s : σ) :
    HandlerResult σ ε × Option SendResult :=
  if a.Enabled = false ∨ a.TrackingID = [] then
    ⟨⟨(runSink S s (next r)).1, (runSink S s (next r)).2, none, none, r, false⟩,
     none⟩
  else
    ⟨⟨(runWrapped S ⟨200, [], s⟩ (next (restoreBody r))).1.sink,
      (runWrapped S ⟨200, [], s⟩ (next (restoreBody r))).2,
      some ((runWrapped S ⟨200, [], s⟩ (next (restoreBody r))).1.statusCode,
            (runWrapped S ⟨200, [], s⟩ (next (restoreBody r))).1.body),
      some (mkEventData (restoreBody r)
             ((runWrapped S ⟨200, [], s⟩ (next (restoreBody r))).1.statusCode) d),
      restoreBody r, true⟩,
     some (a.resolveEndpoint.sendToGA env
            (mkEventData (restoreBody r)
              ((runWrapped S ⟨200, [], s⟩ (next (restoreBody r))).1.statusCode) d))⟩

/-- An event recorded by the concrete test sink. -/
inductive SinkEvt where
  | header (code : Nat)
  | chunk (b : Bytes)
deriving DecidableEq, Repr

/-- A concrete underlying sink that records every forwarded call and
reports every write as fully successful. -/
def listSink : Sink (List SinkEvt) Str :=
  ⟨fun s c => s ++ [SinkEvt.header c], fun s b => (s ++ [SinkEvt.chunk b], (b.length, none))⟩

/-- A concrete underlying sink whose writes always fail. -/
def failSink : Sink Nat Str :=
  ⟨fun s _ => s, fun s _ => (s, (0, some "sink failure".data))⟩

/-- A request with no forwarding headers and remote `9.9.9.9:4444`. -/
def reqNoHeaders : Request :=
  ⟨"GET".data, "/v1/config".data, [], [], "9.9.9.9:4444".data, none⟩

/-- A request with `X-Forwarded-For` and user-agent but no cookie. -/
def reqForwarded : Request :=
  ⟨"GET".data, "/v1/activate".data,
   [("X-Forwarded-For".data, "1.2.3.4, 5.6.6.6".data),
    ("User-Agent".data, "UA1".data)],
   [], "8.8.8.8:1234".data, none⟩

/-- A request with a readable two-byte body. -/
def reqWithBody : Request :=
  ⟨"POST".data, "/v1/track".data, [], [], "7.7.7.7:9".data, some ⟨[10, 20], none⟩⟩

/-- An enabled configuration with a tracking ID and no endpoint set. -/
def analyticsOn : Analytics := ⟨"G-TEST123".data, true, []⟩

/-- The same configuration with tracking disabled. -/
def analyticsOff : Analytics := ⟨"G-TEST123".data, false, []⟩

/-- A downstream handler performing a fixed trace of writer calls. -/
def nextConst : Request → List WOp :=
  fun _ => [WOp.writeHeader 201, WOp.write [1, 2], WOp.write [3]]

/-- Oracles where every effect succeeds and the collector answers 204. -/
def envOK : GAEnv :=
  ⟨fun _ => Except.ok [1], fun _ _ => none, fun _ => Except.ok ⟨204, []⟩⟩

/-- Oracles where the collector answers 500 with a body. -/
def env500 : GAEnv :=
  ⟨fun _ => Except.ok [1], fun _ _ => none,
   fun _ => Except.ok ⟨500, "server error".data⟩⟩

/-- A sample assembled event. -/
def evSample : EventData := mkEventData reqForwarded 200 5

/-- Splitting a separator-free string and taking the head returns the
string itself. -/
theorem headD_splitOnChar_of_not_mem (sep : Char) (l : Str) (h : sep ∉ l) :
    (splitOnChar sep l).headD [] = l := by
  induction l with
  | nil => rfl
  | cons c rest ih =>
    rw [List.mem_cons, not_or] at h
    have hc : ¬ c = sep := fun hc => h.1 hc.symm
    simp only [splitOnChar, if_neg hc]
    show c :: (splitOnChar sep rest).headD [] = c :: rest
    rw [ih h.2]

/-- Splitting `l ++ sep :: t` where `l` is separator-free and taking
the head returns `l`: the first split entry is the part before the
first separator. -/
theorem headD_splitOnChar_append (sep : Char) (l t : Str) (h : sep ∉ l) :
    (splitOnChar sep (l ++ sep :: t)).headD [] = l := by
  induction l with
  | nil => simp [splitOnChar]
  | cons c rest ih =>
    rw [List.mem_cons, not_or] at h
    have hc : ¬ c = sep := fun hc => h.1 hc.symm
    simp only [List.cons_append, splitOnChar, if_neg hc]
    show c :: (splitOnChar sep (rest ++ sep :: t)).headD [] = c :: rest
    rw [ih h.2]

/-- Running a trace through the wrapper leaves the underlying sink in
exactly the state a direct run produces, and hands the downstream
handler exactly the same write results. -/
theorem runWrapped_runSink {σ ε : Type} (S : Sink σ ε) (ops : List WOp) :
    ∀ rw : ResponseWriter σ,
      (runWrapped S rw ops).1.sink = (runSink S rw.sink ops).1 ∧
      (runWrapped S rw ops).2 = (runSink S rw.sink ops).2 := by
  induction ops with
  | nil => intro rw; exact ⟨rfl, rfl⟩
  | cons op ops ih =>
    intro rw
    cases op with
    | writeHeader c => exact ih (rwWriteHeader S rw c)
    | write b =>
        refine ⟨(ih (rwWrite S rw b).1).1, ?_⟩
        show (rwWrite S rw b).2 :: (runWrapped S (rwWrite S rw b).1 ops).2
           = (S.write rw.sink b).2 :: (runSink S (S.write rw.sink b).1 ops).2
        rw [(ih (rwWrite S rw b).1).2]
        rfl

/-- After running a trace through the wrapper, the captured status is
the trace's last explicit status (defaulting to the wrapper's prior
status) and the captured body is the prior body followed by every
written byte slice in call order. -/
theorem runWrapped_capture {σ ε : Type} (S : Sink σ ε) (ops : List WOp) :
    ∀ rw : ResponseWriter σ,
      (runWrapped S rw ops).1.statusCode = lastStatus rw.statusCode ops ∧
      (runWrapped S rw ops).1.body = rw.body ++ writesConcat ops := by
  induction ops with
  | nil => intro rw; exact ⟨rfl, by simp [runWrapped, writesConcat]⟩
  | cons op ops ih =>
    intro rw
    cases op with
    | writeHeader c => exact ih (rwWriteHeader S rw c)
    | write b =>
        refine ⟨(ih (rwWrite S rw b).1).1, ?_⟩
        show (runWrapped S (rwWrite S rw b).1 ops).1.body
           = rw.body ++ writesConcat (WOp.write b :: ops)
        rw [(ih (rwWrite S rw b).1).2]
        show rw.body ++ b ++ writesConcat ops = rw.body ++ (b ++ writesConcat ops)
        rw [List.append_assoc]

/-- A trace with no `writeHeader` leaves the default status in place. -/
theorem lastStatus_of_no_writeHeader (d : Nat) (ops : List WOp)
    (h : ∀ c, WOp.writeHeader c ∉ ops) : lastStatus d ops = d := by
  induction ops with
  | nil => rfl
  | cons op ops ih =>
    cases op with
    | writeHeader c => exact ((h c) (List.mem_cons_self _ _)).elim
    | write b => exact ih (fun c hc => h c (List.mem_cons_of_mem _ hc))

/-- Restoring the body changes no other request field. -/
theorem restoreBody_fields (r : Request) :
    (restoreBody r).method = r.method ∧ (restoreBody r).path = r.path ∧
    (restoreBody r).headers = r.headers ∧ (restoreBody r).cookies = r.cookies ∧
    (restoreBody r).remoteAddr = r.remoteAddr := by
  cases r with
  | mk m p h c ra b => cases b <;> simp [restoreBody]

/-- `getIPAddress` does not look at the body. -/
theorem getIPAddress_restoreBody (r : Request) :
    getIPAddress (restoreBody r) = getIPAddress r := by
  cases r with
  | mk m p h c ra b => cases b <;> rfl

/-- `getClientID` does not look at the body. -/
theorem getClientID_restoreBody (r : Request) :
    getClientID (restoreBody r) = getClientID r := by
  cases r with
  | mk m p h c ra b => cases b <;> rfl

/-- `UserAgent()` does not look at the body. -/
theorem userAgent_restoreBody (r : Request) :
    (restoreBody r).userAgent = r.userAgent := by
  cases r with
  | mk m p h c ra b => cases b <;> rfl

/-- Unfolding of one enabled middleware run. -/
theorem handlerRun_enabled_eq {σ ε : Type} (a : Analytics) (S : Sink σ ε)
    (env : GAEnv) (next : Request → List WOp) (d : Nat) (r : Request) (s : σ)
    (hen : a.Enabled = true) (htid : a.TrackingID ≠ []) :
    a.handlerRun S env next d r s =
      ⟨⟨(runWrapped S ⟨200, [], s⟩ (next (restoreBody r))).1.sink,
        (runWrapped S ⟨200, [], s⟩ (next (restoreBody r))).2,
        some ((runWrapped S ⟨200, [], s⟩ (next (restoreBody r))).1.statusCode,
              (runWrapped S ⟨200, [], s⟩ (next (restoreBody r))).1.body),
        some (mkEventData (restoreBody r)
               ((runWrapped S ⟨200, [], s⟩ (next (restoreBody r))).1.statusCode) d),
        restoreBody r, true⟩,
       some (a.resolveEndpoint.sendToGA env
              (mkEventData (restoreBody r)
                ((runWrapped S ⟨200, [], s⟩ (next (restoreBody r))).1.statusCode) d))⟩ := by
  unfold Analytics.handlerRun
  rw [if_neg]
  simp [hen, htid]

/-- Every `sendToGA` call performs at most one outbound attempt, and
any attempt is the POST of the marshalled event to `gaURL` with the
JSON content type. -/
theorem sendToGA_attempt_shape (a : Analytics) (env : GAEnv) (ev : EventData) :
    (a.sendToGA env ev).attempts.length ≤ 1 ∧
    ∀ req ∈ (a.sendToGA env ev).attempts,
      req.method = "POST".data ∧ req.url = a.gaURL ∧
      req.contentType = "application/json".data ∧
      env.marshal ev = Except.ok req.body := by
  cases hm : env.marshal ev with
  | error e => simp [Analytics.sendToGA, hm]
  | ok j =>
    cases hn : env.newReqErr a.gaURL j with
    | some e => simp [Analytics.sendToGA, hm, hn]
    | none =>
      cases hd : env.doSend ⟨"POST".data, a.gaURL, "application/json".data, j⟩ with
      | error e => simp [Analytics.sendToGA, hm, hn, hd]
      | ok resp =>
        by_cases hs : ¬resp.status = 200 ∧ ¬resp.status = 204
        · simp [Analytics.sendToGA, hm, hn, hd, hs]
        · simp [Analytics.sendToGA, hm, hn, hd, hs]

/-- `resolveEndpoint` keeps the tracking ID, so the resolved URL
splits into the claimed endpoint, measurement id and api-secret
segments. -/
theorem resolveEndpoint_gaURL (a : Analytics) :
    a.resolveEndpoint.gaURL =
      a.resolveEndpoint.EndpointURL ++ "?measurement_id=".data ++ a.TrackingID
        ++ "&api_secret=".data ++ apiSecret := by
  have htid : a.resolveEndpoint.TrackingID = a.TrackingID := by
    unfold Analytics.resolveEndpoint; split <;> rfl
  have hsec : "&api_secret=YOUR_API_SECRET".data = "&api_secret=".data ++ apiSecret := by
    decide
  unfold Analytics.gaURL
  rw [htid, hsec]
  simp [List.append_assoc]

/-- C1: while tracking is enabled the wrapper is transparent:
`WriteHeader` forwards the exact status code to the underlying sink,
`Write` forwards the exact bytes and returns exactly the sink's
`(count, error)` result, and therefore running any downstream trace
through the wrapper leaves the underlying sink in the same state, and
returns the same write results, as running it unwrapped. -/
theorem wrapper_transparent {σ ε : Type} (S : Sink σ ε) (rw : ResponseWriter σ)
    (c : Nat) (b : Bytes) (ops : List WOp) :
    (rwWriteHeader S rw c).sink = S.writeHeader rw.sink c ∧
    (rwWrite S rw b).1.sink = (S.write rw.sink b).1 ∧
    (rwWrite S rw b).2 = (S.write rw.sink b).2 ∧
    (runWrapped S rw ops).1.sink = (runSink S rw.sink ops).1 ∧
    (runWrapped S rw ops).2 = (runSink S rw.sink ops).2 :=
  ⟨rfl, rfl, rfl, (runWrapped_runSink S ops rw).1, (runWrapped_runSink S ops rw).2⟩

/-- C3: over any downstream trace, the wrapper's status code is the
last `WriteHeader` code (or the prior status, 200 for the
handler-initial wrapper, when none was set) and its body buffer is the
prior buffer followed by all written byte slices in call order — it
only grows, never truncated. -/
theorem captured_response_invariant {σ ε : Type} (S : Sink σ ε) (ops : List WOp)
    (s : σ) (rw : ResponseWriter σ) :
    (runWrapped S rw ops).1.statusCode = lastStatus rw.statusCode ops ∧
    (runWrapped S rw ops).1.body = rw.body ++ writesConcat ops ∧
    (runWrapped S ⟨200, [], s⟩ ops).1.statusCode = lastStatus 200 ops ∧
    (runWrapped S ⟨200, [], s⟩ ops).1.body = writesConcat ops ∧
    ((∀ c, WOp.writeHeader c ∉ ops) →
      (runWrapped S ⟨200, [], s⟩ ops).1.statusCode = 200) := by
  refine ⟨(runWrapped_capture S ops rw).1, (runWrapped_capture S ops rw).2,
    (runWrapped_capture S ops ⟨200, [], s⟩).1, ?_, ?_⟩
  · have h := (runWrapped_capture S ops (⟨200, [], s⟩ : ResponseWriter σ)).2
    simpa using h
  · intro h
    exact ((runWrapped_capture S ops ⟨200, [], s⟩).1).trans
      (lastStatus_of_no_writeHeader 200 ops h)

/-- C3 witness: a trace that never calls `WriteHeader` leaves the
default status 200 in the wrapper. -/
theorem captured_response_invariant_witness :
    (runWrapped listSink (⟨200, [], []⟩ : ResponseWriter (List SinkEvt))
      [WOp.write [1], WOp.write [2, 3]]).1.statusCode = 200 :=
  (captured_response_invariant listSink [WOp.write [1], WOp.write [2, 3]]
    [] ⟨200, [], []⟩).2.2.2.2 (by simp)

/-- C2: when `Enabled` is false or `TrackingID` is empty, the run is
exactly a direct run of the downstream handler against the original
sink — same final sink state, same write results, the downstream
handler receives the original request with no wrapper, no capture and
no body read — and no outbound dispatch is performed. -/
theorem gate_bypass {σ ε : Type} (a : Analytics) (S : Sink σ ε) (env : GAEnv)
    (next : Request → List WOp) (d : Nat) (r : Request) (s : σ)
    (h : a.Enabled = false ∨ a.TrackingID = []) :
    a.handlerRun S env next d r s =
      ⟨⟨(runSink S s (next r)).1, (runSink S s (next r)).2, none, none, r, false⟩,
       none⟩ := by
  unfold Analytics.handlerRun
  rw [if_pos h]

/-- C2 witness at a disabled configuration. -/
theorem gate_bypass_witness :
    analyticsOff.handlerRun listSink envOK nextConst 7 reqNoHeaders [] =
      ⟨⟨(runSink listSink [] (nextConst reqNoHeaders)).1,
        (runSink listSink [] (nextConst reqNoHeaders)).2, none, none,
        reqNoHeaders, false⟩,
       none⟩ :=
  gate_bypass analyticsOff listSink envOK nextConst 7 reqNoHeaders []
    (Or.inl (by decide))

/-- C4: `getIPAddress` scans `X-Forwarded-For` then `X-Real-IP` in
that order and returns the first comma-separated entry of the first
non-empty header; with neither header set it returns the remote
address with its port suffix (the part after the first colon)
stripped, and returns a colon-free remote address unchanged. -/
theorem getIPAddress_spec (r : Request) :
    (headerGet r.headers "X-Forwarded-For".data ≠ [] →
       getIPAddress r =
         (splitOnChar ',' (headerGet r.headers "X-Forwarded-For".data)).headD []) ∧
    (∀ entry rest : Str, (',' : Char) ∉ entry →
       headerGet r.headers "X-Forwarded-For".data = entry ++ ',' :: rest →
       getIPAddress r = entry) ∧
    (headerGet r.headers "X-Forwarded-For".data = [] →
       headerGet r.headers "X-Real-IP".data ≠ [] →
       getIPAddress r =
         (splitOnChar ',' (headerGet r.headers "X-Real-IP".data)).headD []) ∧
    (headerGet r.headers "X-Forwarded-For".data = [] →
       headerGet r.headers "X-Real-IP".data = [] →
       ∀ ip port : Str, (':' : Char) ∉ ip → r.remoteAddr = ip ++ ':' :: port →
         getIPAddress r = ip) ∧
    (headerGet r.headers "X-Forwarded-For".data = [] →
       headerGet r.headers "X-Real-IP".data = [] →
       (':' : Char) ∉ r.remoteAddr → getIPAddress r = r.remoteAddr) := by
  refine ⟨fun h1 => ?_, fun entry rest hentry hxff => ?_, fun h1 h2 => ?_,
    fun h1 h2 ip port hip hra => ?_, fun h1 h2 hra => ?_⟩
  · rw [getIPAddress, if_pos h1]
  · have h1 : headerGet r.headers "X-Forwarded-For".data ≠ [] := by
      rw [hxff]; simp
    rw [getIPAddress, if_pos h1, hxff]
    exact headD_splitOnChar_append ',' entry rest hentry
  · rw [getIPAddress, if_neg (not_not_intro h1), if_pos h2]
  · rw [getIPAddress, if_neg (not_not_intro h1), if_neg (not_not_intro h2), hra]
    exact headD_splitOnChar_append ':' ip port hip
  · rw [getIPAddress, if_neg (not_not_intro h1), if_neg (not_not_intro h2)]
    exact headD_splitOnChar_of_not_mem ':' r.remoteAddr hra

/-- C4 witness: no forwarding headers, remote `9.9.9.9:4444` derives
`9.9.9.9`. -/
theorem getIPAddress_spec_witness : getIPAddress reqNoHeaders = "9.9.9.9".data :=
  (getIPAddress_spec reqNoHeaders).2.2.2.1 (by decide) (by decide)
    "9.9.9.9".data "4444".data (by decide) (by decide)

/-- C5: `getClientID` returns the `_ga` cookie value whenever that
cookie is present, regardless of the other request fields, and
otherwise the concatenation of the derived IP address and the raw
user-agent string. -/
theorem getClientID_spec (r : Request) :
    (∀ v, cookieGet r "_ga".data = some v → getClientID r = v) ∧
    (cookieGet r "_ga".data = none →
       getClientID r = getIPAddress r ++ r.userAgent) := by
  constructor
  · intro v hv; simp [getClientID, hv]
  · intro hn; simp [getClientID, hn]

/-- C5 witness: no cookie, `X-Forwarded-For: 1.2.3.4, 5.6.6.6`,
user-agent `UA1` gives client id `1.2.3.4UA1`. -/
theorem getClientID_spec_witness :
    cookieGet reqForwarded "_ga".data = none ∧
    getClientID reqForwarded = "1.2.3.4UA1".data :=
  ⟨by decide, by rw [(getClientID_spec reqForwarded).2 (by decide)]; decide⟩

/-- C6: a serialization failure is logged and aborts the dispatch with
no outbound request; at most one outbound attempt is ever made (no
retry); given a collector response, the dispatch is failure-free
exactly when the status is 200 (OK) or 204 (No Content); any other
collector response is logged with its status and body; and the
caller-visible handler outcome is identical for any two effect
environments, so no `sendToGA` failure reaches or alters the response
already delivered. -/
theorem sendToGA_error_handling (σ ε : Type) (a : Analytics) (env : GAEnv)
    (ev : EventData) :
    (∀ e, env.marshal ev = Except.error e →
       a.sendToGA env ev = ⟨[], some (LogMsg.marshalFail e)⟩) ∧
    ((a.sendToGA env ev).attempts.length ≤ 1) ∧
    (∀ j resp, env.marshal ev = Except.ok j →
       env.newReqErr a.gaURL j = none →
       env.doSend ⟨"POST".data, a.gaURL, "application/json".data, j⟩ =
         Except.ok resp →
       (((a.sendToGA env ev).errorLog = none) ↔
         (resp.status = 200 ∨ resp.status = 204))) ∧
    (∀ j resp, env.marshal ev = Except.ok j →
       env.newReqErr a.gaURL j = none →
       env.doSend ⟨"POST".data, a.gaURL, "application/json".data, j⟩ =
         Except.ok resp →
       resp.status ≠ 200 → resp.status ≠ 204 →
       (a.sendToGA env ev).errorLog =
         some (LogMsg.collectorFail resp.status resp.body)) ∧
    (∀ (S : Sink σ ε) (env' : GAEnv) (next : Request → List WOp) (d : Nat)
       (r : Request) (s : σ),
       (a.handlerRun S env next d r s).1 = (a.handlerRun S env' next d r s).1) := by
  refine ⟨fun e he => ?_, (sendToGA_attempt_shape a env ev).1,
    fun j resp hm hn hd => ?_, fun j resp hm hn hd h200 h204 => ?_,
    fun S env' next d r s => ?_⟩
  · simp [Analytics.sendToGA, he]
  · by_cases h200 : resp.status = 200
    · simp [Analytics.sendToGA, hm, hn, hd, h200]
    · by_cases h204 : resp.status = 204
      · simp [Analytics.sendToGA, hm, hn, hd, h204]
      · simp [Analytics.sendToGA, hm, hn, hd, h200, h204]
  · simp [Analytics.sendToGA, hm, hn, hd, h200, h204]
  · unfold Analytics.handlerRun
    split <;> rfl

/-- C6 witness: a collector answering 500 with body `server error` is
logged with that status and body. -/
theorem sendToGA_error_handling_witness :
    (analyticsOn.sendToGA env500 evSample).errorLog =
      some (LogMsg.collectorFail 500 "server error".data) :=
  (sendToGA_error_handling (List SinkEvt) Str analyticsOn env500 evSample).2.2.2.1
    [1] ⟨500, "server error".data⟩ rfl rfl rfl (by decide) (by decide)

/-- C7: every enabled run dispatches one event whose client id, path,
method, status code, response time, user agent and IP address come
from the request and the captured response; at most one outbound
attempt is made, and any attempt is a POST to
`endpointURL ++ "?measurement_id=" ++ trackingID ++ "&api_secret=" ++
apiSecret` with content type `application/json` and the marshalled
event as body. -/
theorem dispatch_wire_format {σ ε : Type} (a : Analytics) (S : Sink σ ε)
    (env : GAEnv) (next : Request → List WOp) (d : Nat) (r : Request) (s : σ)
    (hen : a.Enabled = true) (htid : a.TrackingID ≠ []) :
    ∃ sr ev st bd,
      (a.handlerRun S env next d r s).2 = some sr ∧
      (a.handlerRun S env next d r s).1.dispatched = some ev ∧
      (a.handlerRun S env next d r s).1.captured = some (st, bd) ∧
      ev = ⟨getClientID r,
            [⟨"api_request".data,
              ⟨r.path, r.method, st, d, r.userAgent, getIPAddress r⟩⟩]⟩ ∧
      sr.attempts.length ≤ 1 ∧
      ∀ req ∈ sr.attempts,
        req.method = "POST".data ∧
        req.url = a.resolveEndpoint.EndpointURL ++ "?measurement_id=".data
                    ++ a.TrackingID ++ "&api_secret=".data ++ apiSecret ∧
        req.contentType = "application/json".data ∧
        env.marshal ev = Except.ok req.body := by
  rw [handlerRun_enabled_eq a S env next d r s hen htid]
  refine ⟨a.resolveEndpoint.sendToGA env
      (mkEventData (restoreBody r)
        ((runWrapped S ⟨200, [], s⟩ (next (restoreBody r))).1.statusCode) d),
    mkEventData (restoreBody r)
      ((runWrapped S ⟨200, [], s⟩ (next (restoreBody r))).1.statusCode) d,
    (runWrapped S ⟨200, [], s⟩ (next (restoreBody r))).1.statusCode,
    (runWrapped S ⟨200, [], s⟩ (next (restoreBody r))).1.body,
    rfl, rfl, rfl, ?_, ?_, ?_⟩
  · unfold mkEventData
    rw [getClientID_restoreBody, getIPAddress_restoreBody, userAgent_restoreBody,
      (restoreBody_fields r).1, (restoreBody_fields r).2.1]
  · exact (sendToGA_attempt_shape a.resolveEndpoint env _).1
  · intro req hreq
    have h := (sendToGA_attempt_shape a.resolveEndpoint env _).2 req hreq
    exact ⟨h.1, by rw [← resolveEndpoint_gaURL]; exact h.2.1, h.2.2.1, h.2.2.2⟩

/-- C7 witness at a concrete enabled run. -/
theorem dispatch_wire_format_witness :
    ∃ sr ev st bd,
      (analyticsOn.handlerRun listSink envOK nextConst 7 reqForwarded []).2 =
        some sr ∧
      (analyticsOn.handlerRun listSink envOK nextConst 7
          reqForwarded []).1.dispatched = some ev ∧
      (analyticsOn.handlerRun listSink envOK nextConst 7
          reqForwarded []).1.captured = some (st, bd) ∧
      ev = ⟨getClientID reqForwarded,
            [⟨"api_request".data,
              ⟨reqForwarded.path, reqForwarded.method, st, 7,
               reqForwarded.userAgent, getIPAddress reqForwarded⟩⟩]⟩ ∧
      sr.attempts.length ≤ 1 ∧
      ∀ req ∈ sr.attempts,
        req.method = "POST".data ∧
        req.url = analyticsOn.resolveEndpoint.EndpointURL
                    ++ "?measurement_id=".data ++ analyticsOn.TrackingID
                    ++ "&api_secret=".data ++ apiSecret ∧
        req.contentType = "application/json".data ∧
        envOK.marshal ev = Except.ok req.body :=
  dispatch_wire_format analyticsOn listSink envOK nextConst 7 reqForwarded []
    rfl (by decide)

/-- C8: on an enabled run with a non-nil body, the downstream handler
receives the request with method, path, headers, cookies and remote
address unchanged, and with a body stream holding exactly the content
read from the original stream. -/
theorem request_body_restored {σ ε : Type} (a : Analytics) (S : Sink σ ε)
    (env : GAEnv) (next : Request → List WOp) (d : Nat) (r : Request) (s : σ)
    (bs : BodyStream) (hen : a.Enabled = true) (htid : a.TrackingID ≠ [])
    (hb : r.body = some bs) :
    (a.handlerRun S env next d r s).1.downstreamReq.method = r.method ∧
    (a.handlerRun S env next d r s).1.downstreamReq.path = r.path ∧
    (a.handlerRun S env next d r s).1.downstreamReq.headers = r.headers ∧
    (a.handlerRun S env next d r s).1.downstreamReq.cookies = r.cookies ∧
    (a.handlerRun S env next d r s).1.downstreamReq.remoteAddr = r.remoteAddr ∧
    (a.handlerRun S env next d r s).1.downstreamReq.body =
      some ⟨bs.content, none⟩ := by
  rw [handlerRun_enabled_eq a S env next d r s hen htid]
  refine ⟨(restoreBody_fields r).1, (restoreBody_fields r).2.1,
    (restoreBody_fields r).2.2.1, (restoreBody_fields r).2.2.2.1,
    (restoreBody_fields r).2.2.2.2, ?_⟩
  show (restoreBody r).body = some ⟨bs.content, none⟩
  simp [restoreBody, hb, readAll]

/-- C8 witness with a two-byte body. -/
theorem request_body_restored_witness :
    (analyticsOn.handlerRun listSink envOK nextConst 7
        reqWithBody []).1.downstreamReq.method = reqWithBody.method ∧
    (analyticsOn.handlerRun listSink envOK nextConst 7
        reqWithBody []).1.downstreamReq.path = reqWithBody.path ∧
    (analyticsOn.handlerRun listSink envOK nextConst 7
        reqWithBody []).1.downstreamReq.headers = reqWithBody.headers ∧
    (analyticsOn.handlerRun listSink envOK nextConst 7
        reqWithBody []).1.downstreamReq.cookies = reqWithBody.cookies ∧
    (analyticsOn.handlerRun listSink envOK nextConst 7
        reqWithBody []).1.downstreamReq.remoteAddr = reqWithBody.remoteAddr ∧
    (analyticsOn.handlerRun listSink envOK nextConst 7
        reqWithBody []).1.downstreamReq.body = some ⟨[10, 20], none⟩ :=
  request_body_restored analyticsOn listSink envOK nextConst 7 reqWithBody []
    ⟨[10, 20], none⟩ rfl (by decide) rfl

/-- C9: `responseWriter.Write` appends to the capture buffer before
delegating, so when the underlying sink's write fails, the bytes stay
in the capture buffer while the sink's count and error are returned
unchanged. -/
theorem write_capture_before_forward {σ ε : Type} (S : Sink σ ε)
    (rw : ResponseWriter σ) (b : Bytes) (s' : σ) (n : Nat) (e : ε)
    (h : S.write rw.sink b = (s', (n, some e))) :
    (rwWrite S rw b).1.body = rw.body ++ b ∧
    (rwWrite S rw b).2 = (n, some e) ∧
    (rwWrite S rw b).1.sink = s' := by
  refine ⟨rfl, ?_, ?_⟩
  · show (S.write rw.sink b).2 = (n, some e)
    rw [h]
  · show (S.write rw.sink b).1 = s'
    rw [h]

/-- C9 witness against a sink whose every write fails. -/
theorem write_capture_before_forward_witness :
    (rwWrite failSink ⟨200, [7], 0⟩ [8, 9]).1.body = [7] ++ [8, 9] ∧
    (rwWrite failSink ⟨200, [7], 0⟩ [8, 9]).2 = (0, some "sink failure".data) ∧
    (rwWrite failSink ⟨200, [7], 0⟩ [8, 9]).1.sink = 0 :=
  write_capture_before_forward failSink ⟨200, [7], 0⟩ [8, 9] 0 0
    "sink failure".data rfl

/-- C10: on an enabled run, a body-read error is silently discarded:
the whole observable outcome is identical to the outcome on the same
request with an error-free body stream, and the downstream handler
receives only the successfully read prefix as its body. -/
theorem body_read_error_discarded {σ ε : Type} (a : Analytics) (S : Sink σ ε)
    (env : GAEnv) (next : Request → List WOp) (d : Nat) (r : Request) (s : σ)
    (content : Bytes) (e : Str)
    (hen : a.Enabled = true) (htid : a.TrackingID ≠ []) :
    a.handlerRun S env next d { r with body := some ⟨content, some e⟩ } s =
      a.handlerRun S env next d { r with body := some ⟨content, none⟩ } s ∧
    (a.handlerRun S env next d
        { r with body := some ⟨content, some e⟩ } s).1.downstreamReq.body =
      some ⟨content, none⟩ := by
  have h1 := handlerRun_enabled_eq a S env next d
    { r with body := some ⟨content, some e⟩ } s hen htid
  have h2 := handlerRun_enabled_eq a S env next d
    { r with body := some ⟨content, none⟩ } s hen htid
  have hr : restoreBody { r with body := some ⟨content, some e⟩ }
          = restoreBody { r with body := some ⟨content, none⟩ } := rfl
  rw [h1, h2, hr]
  exact ⟨rfl, rfl⟩

/-- C10 witness: a body stream failing after one byte. -/
theorem body_read_error_discarded_witness :
    analyticsOn.handlerRun listSink envOK nextConst 7
        { reqWithBody with body := some ⟨[10], some "unexpected EOF".data⟩ } [] =
      analyticsOn.handlerRun listSink envOK nextConst 7
        { reqWithBody with body := some ⟨[10], none⟩ } [] ∧
    (analyticsOn.handlerRun listSink envOK nextConst 7
        { reqWithBody with body := some ⟨[10], some "unexpected EOF".data⟩ }
        []).1.downstreamReq.body = some ⟨[10], none⟩ :=
  body_read_error_discarded analyticsOn listSink envOK nextConst 7 reqWithBody
    [] [10] "unexpected EOF".data rfl (by decide)
